import Mathlib

/-!
Verification of the equipment-design calculators (gas-liquid separator sizing,
shell-and-tube heat-exchanger sizing, vertical-vessel weight estimation).

The Python sources are embedded shallowly over the real numbers: every float
expression becomes the corresponding real-number expression, Python `**`
becomes `Real.rpow` (or a natural power where the exponent is a literal
integer), `math.ceil` / `math.floor` become `Int.ceil` / `Int.floor`, and the
two unbounded `while` loops of `vertical_vessels_weight` become fuelled
recursions whose fuel exhaustion is marked by the error value
`CalcError.nonConvergence`.  Code paths on which the Python program cannot
produce a result (use of the never-assigned `allowable_stress` variable) are
marked by `CalcError.invalidArgument`.
-/

/-- Error outcomes of a single calculation: `invalidArgument` for inputs the
correlations reject (unsupported pitch type, temperature beyond the allowable
stress table), `nonConvergence` for a fixed-point iteration that has not met
its convergence criterion within the available fuel. -/
inductive CalcError where
  | invalidArgument
  | nonConvergence
deriving DecidableEq

/-! ## Heat exchanger: `shellandtubeHE.py` -/

/-- Embedding of `estimate_tube_number` (shellandtubeHE.py lines 15-42):
`total = ceil(area / (pi * tube_outer_diameter * length))`, raised to
`min_tubes` when strictly between 1 and `min_tubes`, and replaced by the
sentinel 0 when the (possibly raised) count exceeds `n`. -/
noncomputable def estimate_tube_number (heat_transfer_area tube_outer_diameter length : ℝ)
    (n min_tubes : ℤ) : ℤ :=
  let tube_surface_area_per_meter := Real.pi * tube_outer_diameter
  let tube_surface_area := tube_surface_area_per_meter * length
  let total := ⌈heat_transfer_area / tube_surface_area⌉
  let total := if 1 < total ∧ total < min_tubes then min_tubes else total
  if n < total then 0 else total

/-- Embedding of `calculate_shell_diameter` (shellandtubeHE.py lines 70-103):
pitch factor 1.1 for pitch type `"t"`, 1.25 for `"s"`, `ValueError`
(`invalidArgument`) otherwise; shell diameter is 1.3 times the bundle
diameter `sqrt(num_tubes * pitch^2 / pi)`, floored at
`min_shell_diameter`. -/
noncomputable def calculate_shell_diameter (num_tubes : ℕ) (tube_outer_diameter : ℝ)
    (pitch_type : String) (min_shell_diameter : ℝ) : Except CalcError ℝ :=
  match (if pitch_type = "t" then some (1.1 : ℝ)
         else if pitch_type = "s" then some 1.25 else none) with
  | none => .error .invalidArgument
  | some pitch_factor =>
    let pitch := tube_outer_diameter * pitch_factor
    let tube_bundle_diameter := Real.sqrt ((num_tubes : ℝ) * pitch ^ 2 / Real.pi)
    let shell_diameter := tube_bundle_diameter * 1.3
    .ok (max shell_diameter min_shell_diameter)

/-- Result record of `calculate_shelltubeexchanger_weight`, mirroring the
Python triple `(total_weight, shell_weight, tube_weight)`. -/
structure ExchangerWeightResult where
  total_weight : ℝ
  shell_weight : ℝ
  tube_weight : ℝ

/-- Embedding of `calculate_shelltubeexchanger_weight` (shellandtubeHE.py
lines 106-153).  The baffle weight is nonzero only when
`0 < baffle_spacing < tube_length`; it is added once into `shell_weight`
and then again into `total_weight`, exactly as in the source. -/
noncomputable def calculate_shelltubeexchanger_weight (shell_diameter tube_length
    tube_outer_diameter : ℝ) (num_tubes : ℕ) (baffle_spacing shell_thickness
    tube_thickness baffle_thickness shell_steel_density
    tube_steel_density : ℝ) : ExchangerWeightResult :=
  let shell_inner_diameter := shell_diameter - 2 * shell_thickness
  let shell_volume := Real.pi * (shell_diameter ^ 2 - shell_inner_diameter ^ 2) / 4 * tube_length
  let tube_inner_diameter := tube_outer_diameter - 2 * tube_thickness
  let tube_volume := (num_tubes : ℝ) * Real.pi * (tube_outer_diameter ^ 2 - tube_inner_diameter ^ 2) / 4 * tube_length
  let baffle_weight :=
    if 0 < baffle_spacing ∧ baffle_spacing < tube_length then
      let baffle_count := ⌊tube_length / baffle_spacing⌋
      let baffle_area := shell_inner_diameter * shell_inner_diameter * Real.pi / 4
      let baffle_volume := baffle_area * baffle_thickness * (baffle_count : ℝ)
      baffle_volume * shell_steel_density
    else 0
  let shell_weight := shell_volume * shell_steel_density + baffle_weight
  let tube_weight := tube_volume * tube_steel_density
  ⟨shell_weight + tube_weight + baffle_weight, shell_weight, tube_weight⟩

/-! ## Gas-liquid separator: `gasliquidsep.py` -/

/-- Result record of `gas_liquid_separator_sizing`, mirroring the Python
tuple `(D_vessel, D_volume, hold_up_time, gas_velocity)`. -/
structure SeparatorResult where
  D_vessel : ℝ
  D_volume : ℝ
  hold_up_time : ℝ
  gas_velocity : ℝ

/-- Embedding of the droplet terminal-velocity computation
(gasliquidsep.py lines 56-61). -/
noncomputable def terminal_velocity (rho_vapor rho_liquid viscosity_gas D_sphere : ℝ) : ℝ :=
  let g : ℝ := 9.81
  let D_stern := D_sphere * (rho_vapor * (rho_liquid - rho_vapor) * g / viscosity_gas ^ 2) ^ ((1 : ℝ) / 3)
  let u_t_stern := (18 / D_stern ^ 2 + 0.591 / D_stern ^ ((0.5 : ℝ)))⁻¹
  u_t_stern * (rho_vapor ^ 2 / (viscosity_gas * (rho_liquid - rho_vapor) * g)) ^ (-(1 : ℝ) / 3)

/-- Embedding of `gas_liquid_separator_sizing` (gasliquidsep.py lines
11-78), with the terminal-velocity steps factored into
`terminal_velocity`. -/
noncomputable def gas_liquid_separator_sizing (rho_vapor rho_liquid gas_flowrate
    liquid_flowrate viscosity_gas h_d_ratio D_sphere : ℝ) : SeparatorResult :=
  let u_t := terminal_velocity rho_vapor rho_liquid viscosity_gas D_sphere
  let D_vessel := (4 * gas_flowrate / (Real.pi * u_t)) ^ ((1 : ℝ) / 2)
  let gas_velocity := 4 * gas_flowrate / (Real.pi * D_vessel ^ 2)
  let D_length := h_d_ratio * D_vessel
  let D_volume := Real.pi / 4 * D_vessel ^ 2 * D_length
  let hold_up_time := (Real.pi * (0.1 * D_length) * D_vessel ^ 2) / (4 * liquid_flowrate) / 3600
  ⟨D_vessel, D_volume, hold_up_time, gas_velocity⟩

/-! ## Vertical vessel weight: `weightvessels.py` -/

/-- Unit constant of weightvessels.py line 33. -/
def kg_m3_to_lb_in3 : ℝ := 0.000036127298147753

/-- Unit constant of weightvessels.py line 34. -/
def m_to_inch : ℝ := 39.3701

/-- Unit constant of weightvessels.py lines 35 and 37. -/
def kPa_to_psig : ℝ := 0.145038

/-- Unit constant of weightvessels.py line 36. -/
def kg_to_lb : ℝ := 2.20462

/-- Embedding of the design-pressure selection (weightvessels.py lines
40-45).  The source's trailing `elif lowest_pressure >= 6895` is the only
reachable case once the first two tests have failed, so it is embedded as
the final `else`. -/
noncomputable def design_pressure (lowest_pressure : ℝ) : ℝ :=
  if lowest_pressure ≤ 34.5 then 10.0
  else if lowest_pressure ≤ 6895 then
    Real.exp (0.60608 + 0.91615 * Real.log (lowest_pressure * kPa_to_psig)
      + 0.0015655 * (Real.log (lowest_pressure * kPa_to_psig)) ^ 2)
  else 1.1 * (lowest_pressure * kPa_to_psig)

/-- Embedding of the design-temperature conversion (weightvessels.py line
49): Kelvin to Fahrenheit plus a 50 degree margin. -/
noncomputable def design_temp (highest_temp : ℝ) : ℝ :=
  (highest_temp - 273.15) * 9 / 5 + 32.0 + 50.0

/-- Embedding of the modulus-of-elasticity table (weightvessels.py lines
52-59). -/
noncomputable def E_modulus (dt : ℝ) : ℝ :=
  if dt < 200.0 then 30.2 * 10 ^ 6
  else if dt < 400.0 then 29.5 * 10 ^ 6
  else if dt < 650.0 then 28.3 * 10 ^ 6
  else 26.0 * 10 ^ 6

/-- Embedding of the allowable-stress table (weightvessels.py lines 62-71).
In the `else` band the Python source only prints a warning and leaves the
variable `allowable_stress` unassigned, so the band is embedded as `none`:
any later use of the value fails. -/
noncomputable def allowable_stress (dt : ℝ) : Option ℝ :=
  if dt ≤ 750 then some 15000
  else if dt ≤ 800 then some 14750
  else if dt ≤ 850 then some 14200
  else if dt ≤ 900 then some 13100
  else none

/-- Embedding of the high-pressure wind/seismic thickness iteration
(weightvessels.py lines 79-82).  The source's `while abs(error) > 0.001`
loop (entered unconditionally because `error` starts at 1) is embedded as a
fuelled recursion: each step computes the next `tE` from `tE1` and stops
with that `tE` when the relative change is at most 0.001; exhausted fuel
means the loop is still running and is marked `nonConvergence`. -/
noncomputable def iterateHigh (S D L : ℝ) : ℕ → ℝ → Except CalcError ℝ
  | 0, _ => .error .nonConvergence
  | fuel + 1, tE1 =>
    let tE := 0.22 * (((D * m_to_inch) + tE1) + 18) * (L * m_to_inch) ^ 2
      / (S * ((D * m_to_inch) + tE1) ^ 2)
    if |(tE1 - tE) / tE1| ≤ 0.001 then .ok tE else iterateHigh S D L fuel tE

/-- Embedding of the low-pressure thickness iteration (weightvessels.py
lines 86-89), fuelled exactly like `iterateHigh`. -/
noncomputable def iterateLow (dp E D L : ℝ) : ℕ → ℝ → Except CalcError ℝ
  | 0, _ => .error .nonConvergence
  | fuel + 1, tE1 =>
    let tE := 1.3 * ((D * m_to_inch) + tE1)
      * ((dp * (L * m_to_inch)) / (E * ((D * m_to_inch) + tE1))) ^ ((0.4 : ℝ))
    if |(tE1 - tE) / tE1| ≤ 0.001 then .ok tE else iterateLow dp E D L fuel tE

/-- Embedding of the high-pressure wall-thickness branch (weightvessels.py
lines 78-84): the allowable stress must be available (in the source its use
inside the loop body raises `UnboundLocalError` when the temperature band
left it unassigned), then the wind/seismic iteration runs from the initial
guess 0.25 and the pressure thickness `tp` is added as `(tp + tE + tp) / 2`. -/
noncomputable def highBranch (dp dt D L : ℝ) (fuel : ℕ) : Except CalcError ℝ :=
  match allowable_stress dt with
  | none => .error .invalidArgument
  | some S =>
    match iterateHigh S D L fuel 0.25 with
    | .error e => .error e
    | .ok tE =>
      let tp := (dp * (D * m_to_inch)) / (2 * S - 1.2 * dp)
      .ok ((tp + tE + tp) / 2)

/-- Embedding of the low-pressure wall-thickness branch (weightvessels.py
lines 85-97): the iteration runs from 0.25, then the empirical correction
`tEC` and the 0.125 corrosion allowance are added.  The `check` ratio of
lines 90-92 only prints a non-fatal warning and has no effect on the
result, so it is not embedded. -/
noncomputable def lowBranch (dp E D L : ℝ) (fuel : ℕ) : Except CalcError ℝ :=
  match iterateLow dp E D L fuel 0.25 with
  | .error e => .error e
  | .ok tE =>
    let tEC := (L * m_to_inch) * (0.18 * (D * m_to_inch) - 2.2) * (10 : ℝ) ^ (-5 : ℤ) - 0.19
    .ok (if 0 < tEC then tEC + tE + 0.125 else tE + 0.125)

/-- Embedding of the wall-thickness computation of `vertical_vessels_weight`
(weightvessels.py lines 40-101): design pressure/temperature derivation,
branch selection on `lowest_pressure >= 101` (the source's
`elif lowest_pressure <= 101` is the only reachable case once the first
test has failed, so it is embedded as `else`), and the final 0.25 in
minimum-thickness floor of lines 100-101. -/
noncomputable def t_total_of (lowest_pressure highest_temp diameter
    tangent_tangent_length : ℝ) (fuel : ℕ) : Except CalcError ℝ :=
  (if 101 ≤ lowest_pressure then
    highBranch (design_pressure lowest_pressure) (design_temp highest_temp)
      diameter tangent_tangent_length fuel
  else
    lowBranch (design_pressure lowest_pressure)
      (E_modulus (design_temp highest_temp)) diameter tangent_tangent_length
      fuel).map (fun t => if t < 0.25 then 0.25 else t)

/-- Embedding of `vertical_vessels_weight` (weightvessels.py lines 9-108):
the wall thickness computed by `t_total_of` feeds the final weight formula
of lines 104-106, whose pound result is divided by `kg_to_lb`. -/
noncomputable def vertical_vessels_weight (lowest_pressure highest_temp
    diameter tangent_tangent_length material_density : ℝ) (fuel : ℕ) :
    Except CalcError ℝ :=
  match t_total_of lowest_pressure highest_temp diameter tangent_tangent_length fuel with
  | .error e => .error e
  | .ok t_total =>
    let weight := Real.pi * t_total * (material_density * kg_m3_to_lb_in3)
      * ((diameter * m_to_inch) + t_total)
      * ((tangent_tangent_length * m_to_inch) + 0.8 * (diameter * m_to_inch))
    .ok (weight / kg_to_lb)

/-! ## Theorems -/

/-- Helper: the raw tube count for area `5 * pi`, tube OD 1 and length 1 is
exactly 5. -/
lemma ceil_five_pi : ⌈(5 * Real.pi) / (Real.pi * 1 * 1)⌉ = (5 : ℤ) := by
  have h : (5 * Real.pi) / (Real.pi * 1 * 1) = (5 : ℝ) := by
    field_simp
  rw [h]
  norm_num

/-- Helper: the same raw tube count with the denominator already
simplified. -/
lemma ceil_five_pi_reduced : ⌈5 * Real.pi / Real.pi⌉ = (5 : ℤ) := by
  have h : 5 * Real.pi / Real.pi = (5 : ℝ) := by
    field_simp
  rw [h]
  norm_num

/-- C6: `estimate_tube_number` returns the raw count
`ceil(area / (pi * tubeOD * length))` when that count is 0, exactly 1, or at
least `min_tubes` (and does not exceed `n`); returns `min_tubes` when the raw
count is strictly between 1 and `min_tubes` (and `min_tubes` does not exceed
`n`); returns the infeasible sentinel 0 when the possibly-raised count
exceeds `n`; and returns 0 whenever the area is 0. -/
theorem estimate_tube_number_cases (area od len : ℝ) (n mt : ℤ) :
    ((⌈area / (Real.pi * od * len)⌉ = 0 ∨ ⌈area / (Real.pi * od * len)⌉ = 1 ∨
        mt ≤ ⌈area / (Real.pi * od * len)⌉) →
      ⌈area / (Real.pi * od * len)⌉ ≤ n →
      estimate_tube_number area od len n mt = ⌈area / (Real.pi * od * len)⌉) ∧
    (1 < ⌈area / (Real.pi * od * len)⌉ → ⌈area / (Real.pi * od * len)⌉ < mt →
      mt ≤ n → estimate_tube_number area od len n mt = mt) ∧
    (n < (if 1 < ⌈area / (Real.pi * od * len)⌉ ∧ ⌈area / (Real.pi * od * len)⌉ < mt
          then mt else ⌈area / (Real.pi * od * len)⌉) →
      estimate_tube_number area od len n mt = 0) ∧
    (area = 0 → estimate_tube_number area od len n mt = 0) := by
  refine ⟨?_, ?_, ?_, ?_⟩
  · intro h hle
    simp only [estimate_tube_number]
    rcases h with h | h | h <;> split_ifs <;> omega
  · intro h1 h2 h3
    simp only [estimate_tube_number]
    split_ifs <;> omega
  · intro h
    simp only [estimate_tube_number]
    split_ifs at h ⊢ <;> omega
  · rintro rfl
    simp only [estimate_tube_number, zero_div, Int.ceil_zero]
    split_ifs <;> omega

/-- Witness for C6: a raw count of 5 with `min_tubes = 20` and cap 100 is
raised to 20. -/
theorem estimate_tube_number_cases_witness :
    estimate_tube_number (5 * Real.pi) 1 1 100 20 = 20 := by
  have h := (estimate_tube_number_cases (5 * Real.pi) 1 1 100 20).2.1
  rw [ceil_five_pi] at h
  exact h (by norm_num) (by norm_num) (by norm_num)

/-- C10: the minimum-tube raise is applied before the maximum check: when the
raw count is strictly between 1 and `min_tubes` while `min_tubes` exceeds the
cap `n`, the result is the sentinel 0 even though the raw count itself does
not exceed `n`. -/
theorem estimate_tube_number_raise_then_cap (area od len : ℝ) (n mt : ℤ)
    (h1 : 1 < ⌈area / (Real.pi * od * len)⌉)
    (h2 : ⌈area / (Real.pi * od * len)⌉ < mt)
    (h3 : n < mt)
    (h4 : ⌈area / (Real.pi * od * len)⌉ ≤ n) :
    estimate_tube_number area od len n mt = 0 := by
  simp only [estimate_tube_number]
  split_ifs <;> omega

/-- Witness for C10: raw count 5, `min_tubes = 20`, cap 10: the raw count is
within the cap but the raised count is not, so the result is 0. -/
theorem estimate_tube_number_raise_then_cap_witness :
    estimate_tube_number (5 * Real.pi) 1 1 10 20 = 0 := by
  refine estimate_tube_number_raise_then_cap (5 * Real.pi) 1 1 10 20 ?_ ?_ ?_ ?_ <;>
    norm_num [ceil_five_pi, ceil_five_pi_reduced]

/-- C8: `calculate_shell_diameter` fails with `invalidArgument` when the
pitch type is neither `"t"` nor `"s"`; for `"t"` it returns
`max (1.3 * sqrt(tubeCount * (tubeOD * 1.1)^2 / pi)) minShellDiameter`, for
`"s"` the same with factor 1.25; and every returned diameter is at least the
minimum shell diameter. -/
theorem calculate_shell_diameter_spec (nt : ℕ) (od minD : ℝ) (pt : String) :
    (pt ≠ "t" → pt ≠ "s" →
      calculate_shell_diameter nt od pt minD = .error .invalidArgument) ∧
    calculate_shell_diameter nt od "t" minD =
      .ok (max (1.3 * Real.sqrt ((nt : ℝ) * (od * 1.1) ^ 2 / Real.pi)) minD) ∧
    calculate_shell_diameter nt od "s" minD =
      .ok (max (1.3 * Real.sqrt ((nt : ℝ) * (od * 1.25) ^ 2 / Real.pi)) minD) ∧
    (∀ d, calculate_shell_diameter nt od pt minD = .ok d → minD ≤ d) := by
  refine ⟨?_, ?_, ?_, ?_⟩
  · intro h1 h2
    simp only [calculate_shell_diameter, if_neg h1, if_neg h2]
  · simp only [calculate_shell_diameter, if_pos rfl, if_true]
    rw [mul_comm (Real.sqrt ((nt : ℝ) * (od * 1.1) ^ 2 / Real.pi)) (1.3 : ℝ)]
  · have hts : ("s" : String) ≠ "t" := by decide
    simp only [calculate_shell_diameter, if_neg hts, if_pos rfl, if_true]
    rw [mul_comm (Real.sqrt ((nt : ℝ) * (od * 1.25) ^ 2 / Real.pi)) (1.3 : ℝ)]
  · intro d hd
    by_cases h1 : pt = "t"
    · subst h1
      simp only [calculate_shell_diameter, if_pos rfl, if_true,
        Except.ok.injEq] at hd
      rw [← hd]
      exact le_max_right _ _
    · by_cases h2 : pt = "s"
      · subst h2
        have hts : ("s" : String) ≠ "t" := by decide
        simp only [calculate_shell_diameter, if_neg hts, if_pos rfl, if_true,
          Except.ok.injEq] at hd
        rw [← hd]
        exact le_max_right _ _
      · simp only [calculate_shell_diameter, if_neg h1, if_neg h2] at hd
        exact absurd hd (by simp)

/-- Witness for C8: pitch type `"x"` is rejected with `invalidArgument`. -/
theorem calculate_shell_diameter_spec_witness :
    calculate_shell_diameter 4 1 "x" 0.15 = .error .invalidArgument :=
  (calculate_shell_diameter_spec 4 1 0.15 "x").1 (by decide) (by decide)

/-- C4: when `0 < baffle_spacing < tube_length` the baffle weight
(`floor(tube_length / baffle_spacing)` full disks of shell-inner diameter,
baffle thickness, shell steel density) is contained once in the returned
`shell_weight` and appears a second time in the returned total, so
`total = shell_weight + tube_weight + baffle_weight` with the baffle weight
already inside `shell_weight`; otherwise the baffle weight is zero and
`total = shell_weight + tube_weight`. -/
theorem exchanger_weight_double_counts_baffles (sd tl od : ℝ) (nt : ℕ)
    (bs st tt bt rs rt : ℝ) :
    (0 < bs → bs < tl →
      (calculate_shelltubeexchanger_weight sd tl od nt bs st tt bt rs rt).total_weight =
        (calculate_shelltubeexchanger_weight sd tl od nt bs st tt bt rs rt).shell_weight +
        (calculate_shelltubeexchanger_weight sd tl od nt bs st tt bt rs rt).tube_weight +
        (⌊tl / bs⌋ : ℝ) * (Real.pi * (sd - 2 * st) ^ 2 / 4) * bt * rs ∧
      (calculate_shelltubeexchanger_weight sd tl od nt bs st tt bt rs rt).shell_weight =
        Real.pi * (sd ^ 2 - (sd - 2 * st) ^ 2) / 4 * tl * rs +
        (⌊tl / bs⌋ : ℝ) * (Real.pi * (sd - 2 * st) ^ 2 / 4) * bt * rs) ∧
    (bs ≤ 0 ∨ tl ≤ bs →
      (calculate_shelltubeexchanger_weight sd tl od nt bs st tt bt rs rt).total_weight =
        (calculate_shelltubeexchanger_weight sd tl od nt bs st tt bt rs rt).shell_weight +
        (calculate_shelltubeexchanger_weight sd tl od nt bs st tt bt rs rt).tube_weight ∧
      (calculate_shelltubeexchanger_weight sd tl od nt bs st tt bt rs rt).shell_weight =
        Real.pi * (sd ^ 2 - (sd - 2 * st) ^ 2) / 4 * tl * rs) := by
  constructor
  · intro h1 h2
    simp only [calculate_shelltubeexchanger_weight, if_pos (And.intro h1 h2)]
    constructor <;> ring
  · intro h
    have hneg : ¬(0 < bs ∧ bs < tl) := by
      rintro ⟨a, b⟩
      rcases h with h | h <;> linarith
    simp only [calculate_shelltubeexchanger_weight, if_neg hneg]
    constructor <;> ring

/-- Witness for C4: concrete exchanger with baffle spacing 1 and tube length
6, so six baffles are counted; the double-counting identity holds there. -/
theorem exchanger_weight_double_counts_baffles_witness :
    (calculate_shelltubeexchanger_weight 1 6 0.1 10 1 0.1 0.01 0.01 7850 7850).total_weight =
      (calculate_shelltubeexchanger_weight 1 6 0.1 10 1 0.1 0.01 0.01 7850 7850).shell_weight +
      (calculate_shelltubeexchanger_weight 1 6 0.1 10 1 0.1 0.01 0.01 7850 7850).tube_weight +
      (⌊(6 : ℝ) / 1⌋ : ℝ) * (Real.pi * ((1 : ℝ) - 2 * 0.1) ^ 2 / 4) * 0.01 * 7850 :=
  ((exchanger_weight_double_counts_baffles 1 6 0.1 10 1 0.1 0.01 0.01 7850 7850).1
    (by norm_num) (by norm_num)).1

/-- Helper: under the separator validity preconditions the droplet terminal
velocity is strictly positive. -/
lemma terminal_velocity_pos (rv rl mu ds : ℝ) (hrv : 0 < rv) (hlt : rv < rl)
    (hmu : 0 < mu) (hds : 0 < ds) : 0 < terminal_velocity rv rl mu ds := by
  have hsub : 0 < rl - rv := sub_pos.mpr hlt
  have hA : 0 < rv * (rl - rv) * 9.81 / mu ^ 2 :=
    div_pos (mul_pos (mul_pos hrv hsub) (by norm_num)) (pow_pos hmu 2)
  have hD : 0 < ds * (rv * (rl - rv) * 9.81 / mu ^ 2) ^ ((1 : ℝ) / 3) :=
    mul_pos hds (Real.rpow_pos_of_pos hA _)
  have hsum : 0 < 18 / (ds * (rv * (rl - rv) * 9.81 / mu ^ 2) ^ ((1 : ℝ) / 3)) ^ 2
      + 0.591 / (ds * (rv * (rl - rv) * 9.81 / mu ^ 2) ^ ((1 : ℝ) / 3)) ^ ((0.5 : ℝ)) :=
    add_pos (div_pos (by norm_num) (pow_pos hD 2))
      (div_pos (by norm_num) (Real.rpow_pos_of_pos hD _))
  have hB : 0 < rv ^ 2 / (mu * (rl - rv) * 9.81) :=
    div_pos (pow_pos hrv 2) (mul_pos (mul_pos hmu hsub) (by norm_num))
  simp only [terminal_velocity]
  exact mul_pos (inv_pos.mpr hsum) (Real.rpow_pos_of_pos hB _)

/-- C3: for every valid separator input (positive densities, flows,
viscosity and droplet size, with liquid denser than vapor) the returned gas
velocity equals the droplet terminal velocity exactly, because the vessel
diameter is chosen so that `4 * gas_flowrate / (pi * D^2)` equals the
terminal velocity and the gas velocity is then recomputed from that
diameter. -/
theorem separator_gas_velocity_eq_terminal (rv rl q ql mu hd ds : ℝ)
    (hrv : 0 < rv) (hlt : rv < rl) (hq : 0 < q) (hmu : 0 < mu) (hds : 0 < ds) :
    (gas_liquid_separator_sizing rv rl q ql mu hd ds).gas_velocity =
      terminal_velocity rv rl mu ds := by
  have hut : 0 < terminal_velocity rv rl mu ds :=
    terminal_velocity_pos rv rl mu ds hrv hlt hmu hds
  simp only [gas_liquid_separator_sizing]
  have hX : (0 : ℝ) < 4 * q / (Real.pi * terminal_velocity rv rl mu ds) :=
    div_pos (by linarith) (mul_pos Real.pi_pos hut)
  have hsq : ((4 * q / (Real.pi * terminal_velocity rv rl mu ds)) ^ ((1 : ℝ) / 2)) ^ (2 : ℕ)
      = 4 * q / (Real.pi * terminal_velocity rv rl mu ds) := by
    rw [← Real.rpow_natCast
      ((4 * q / (Real.pi * terminal_velocity rv rl mu ds)) ^ ((1 : ℝ) / 2)) 2,
      ← Real.rpow_mul hX.le]
    norm_num
  rw [hsq]
  have hpi := Real.pi_ne_zero
  have hu := hut.ne'
  have hq4 : (4 : ℝ) * q ≠ 0 := by positivity
  field_simp
  ring

/-- Witness for C3: the gas-velocity/terminal-velocity identity at the
concrete valid input (1, 2, 1, 1, 1, 3, 1). -/
theorem separator_gas_velocity_eq_terminal_witness :
    (gas_liquid_separator_sizing 1 2 1 1 1 3 1).gas_velocity =
      terminal_velocity 1 2 1 1 :=
  separator_gas_velocity_eq_terminal 1 2 1 1 1 3 1 (by norm_num) (by norm_num)
    (by norm_num) (by norm_num) (by norm_num)

/-- C7: for every valid separator input with positive liquid flow, the
returned hold-up time is `pi * (0.1 * vessel_length) * vessel_diameter^2 /
(4 * liquid_flowrate) / 3600` (vessel length being `h_d_ratio` times the
returned diameter): the literal 10 percent of the vessel length with the
full diameter, converted to hours. -/
theorem separator_holdup_time_formula (rv rl q ql mu hd ds : ℝ)
    (hrv : 0 < rv) (hlt : rv < rl) (hq : 0 < q) (hql : 0 < ql) (hmu : 0 < mu)
    (hhd : 0 < hd) (hds : 0 < ds) :
    (gas_liquid_separator_sizing rv rl q ql mu hd ds).hold_up_time =
      Real.pi * (0.1 * (hd * (gas_liquid_separator_sizing rv rl q ql mu hd ds).D_vessel))
        * (gas_liquid_separator_sizing rv rl q ql mu hd ds).D_vessel ^ 2
        / (4 * ql) / 3600 := by
  simp only [gas_liquid_separator_sizing]

/-- Witness for C7: the hold-up-time formula at the concrete valid input
(1, 2, 1, 1, 1, 3, 1). -/
theorem separator_holdup_time_formula_witness :
    (gas_liquid_separator_sizing 1 2 1 1 1 3 1).hold_up_time =
      Real.pi * (0.1 * (3 * (gas_liquid_separator_sizing 1 2 1 1 1 3 1).D_vessel))
        * (gas_liquid_separator_sizing 1 2 1 1 1 3 1).D_vessel ^ 2 / (4 * 1) / 3600 :=
  separator_holdup_time_formula 1 2 1 1 1 3 1 (by norm_num) (by norm_num)
    (by norm_num) (by norm_num) (by norm_num) (by norm_num) (by norm_num)

/-- C5: the weight returned by the vessel weight operation is always
`pi * t_total * (material_density converted to lb per cubic inch)
* (diameter_in_inches + t_total) * (length_in_inches + 0.8 *
diameter_in_inches)` divided by the kilogram-to-pound constant 2.20462,
where `t_total` is the wall thickness computed by the pipeline of
weightvessels.py lines 40-101: the output unit is kilograms although all
intermediate arithmetic is Imperial. -/
theorem vessel_weight_formula (p T D L rho : ℝ) (fuel : ℕ) :
    vertical_vessels_weight p T D L rho fuel =
      (t_total_of p T D L fuel).map (fun t =>
        Real.pi * t * (rho * 0.000036127298147753) * (D * 39.3701 + t)
          * (L * 39.3701 + 0.8 * (D * 39.3701)) / 2.20462) := by
  cases h : t_total_of p T D L fuel with
  | error e => simp [vertical_vessels_weight, h, Except.map]
  | ok t =>
    simp [vertical_vessels_weight, h, Except.map, kg_m3_to_lb_in3, m_to_inch,
      kg_to_lb]

/-- C9: the sequential conditionals resolve the boundary overlaps
deterministically: at `lowest_pressure` exactly 6895 kPa the log-quadratic
design-pressure correlation applies (not the 1.1 factor rule), and at
`lowest_pressure` exactly 101 kPa the wall thickness is computed by the
high-pressure branch (wind/seismic iteration plus pressure thickness `tp`,
total `(tp + tE + tp) / 2`), not the low/atmospheric branch. -/
theorem vessel_branch_boundaries :
    design_pressure 6895 = Real.exp (0.60608 + 0.91615 * Real.log (6895 * 0.145038)
      + 0.0015655 * (Real.log (6895 * 0.145038)) ^ 2) ∧
    ∀ (T D L : ℝ) (fuel : ℕ), t_total_of 101 T D L fuel =
      (highBranch (design_pressure 101) (design_temp T) D L fuel).map
        (fun t => if t < 0.25 then 0.25 else t) := by
  constructor
  · simp only [design_pressure, kPa_to_psig]
    rw [if_neg (by norm_num), if_pos (by norm_num)]
  · intro T D L fuel
    simp only [t_total_of]
    rw [if_pos (by norm_num : (101 : ℝ) ≤ 101)]

/-- C1 (amended): when the design temperature exceeds 900 degrees F and the
lowest pressure selects the high-pressure branch (at least 101 kPa), the
vessel weight operation fails with `invalidArgument` (the allowable-stress
table has no value there and the branch uses it) and returns no weight. -/
theorem vessel_high_temp_invalid_high_pressure (p T D L rho : ℝ) (fuel : ℕ)
    (hp : 101 ≤ p) (ht : 900 < design_temp T) :
    vertical_vessels_weight p T D L rho fuel = .error .invalidArgument := by
  have hstress : allowable_stress (design_temp T) = none := by
    simp only [allowable_stress]
    rw [if_neg (by linarith), if_neg (by linarith), if_neg (by linarith),
      if_neg (by linarith)]
  simp [vertical_vessels_weight, t_total_of, if_pos hp, highBranch, hstress,
    Except.map]

/-- Witness for the amended C1: at 101 kPa and 800 K (design temperature
1030.33 degrees F) the operation fails with `invalidArgument`. -/
theorem vessel_high_temp_invalid_high_pressure_witness :
    vertical_vessels_weight 101 800 1 5 7850 0 = .error .invalidArgument :=
  vessel_high_temp_invalid_high_pressure 101 800 1 5 7850 0 (by norm_num)
    (by norm_num [design_temp])

/-- Design pressure at 50 kPa: the value of the log-quadratic correlation
there, used to build the counterexample input for C1. -/
noncomputable def dp50 : ℝ :=
  Real.exp (0.60608 + 0.91615 * Real.log (50 * 0.145038)
    + 0.0015655 * (Real.log (50 * 0.145038)) ^ 2)

/-- Counterexample tangent-tangent length in inches, chosen so that the
low-pressure iteration map sends the initial guess 0.25 exactly to 0.25 and
therefore stops after one step. -/
noncomputable def Lin_ce : ℝ := 32500000 * ((2 : ℝ) / 13) ^ ((5 : ℝ) / 2) / dp50

/-- The weight the vessel operation returns on the C1 counterexample
input. -/
noncomputable def w_ce : ℝ :=
  Real.pi * 0.375 * (7850 * 0.000036127298147753) * (1 + 0.375)
    * (Lin_ce + 0.8 * 1) / 2.20462

lemma dp50_pos : 0 < dp50 := Real.exp_pos _

lemma Lin_ce_pos : 0 < Lin_ce := by
  simp only [Lin_ce]
  exact div_pos (mul_pos (by norm_num) (Real.rpow_pos_of_pos (by norm_num) _))
    dp50_pos

lemma design_pressure_50 : design_pressure 50 = dp50 := by
  simp only [design_pressure, kPa_to_psig, dp50]
  rw [if_neg (by norm_num), if_pos (by norm_num)]

lemma E_modulus_800K : E_modulus (design_temp 800) = 26.0 * 10 ^ 6 := by
  simp only [E_modulus, design_temp]
  rw [if_neg (by norm_num), if_neg (by norm_num), if_neg (by norm_num)]

lemma Din_ce : (1 / 39.3701 : ℝ) * m_to_inch = 1 := by
  norm_num [m_to_inch]

lemma Lm_ce : Lin_ce / 39.3701 * m_to_inch = Lin_ce :=
  div_mul_cancel₀ _ (by norm_num [m_to_inch] : m_to_inch ≠ 0)

lemma iterate_low_ce :
    iterateLow dp50 (26.0 * 10 ^ 6) (1 / 39.3701) (Lin_ce / 39.3701) 1 0.25 =
      .ok 0.25 := by
  have harg : 1.3 * ((1 / 39.3701 : ℝ) * m_to_inch + 0.25)
      * ((dp50 * (Lin_ce / 39.3701 * m_to_inch))
        / ((26.0 * 10 ^ 6) * ((1 / 39.3701 : ℝ) * m_to_inch + 0.25))) ^ ((0.4 : ℝ))
      = 0.25 := by
    rw [Din_ce, Lm_ce]
    have hcancel : dp50 * Lin_ce = 32500000 * ((2 : ℝ) / 13) ^ ((5 : ℝ) / 2) := by
      simp only [Lin_ce]
      rw [mul_comm, div_mul_cancel₀ _ dp50_pos.ne']
    rw [hcancel]
    have hden : (26.0 * 10 ^ 6 : ℝ) * (1 + 0.25) = 32500000 := by norm_num
    rw [hden, mul_div_cancel_left₀ _ (by norm_num : (32500000 : ℝ) ≠ 0)]
    rw [← Real.rpow_mul (by norm_num : (0 : ℝ) ≤ 2 / 13)]
    rw [show ((5 : ℝ) / 2) * (0.4 : ℝ) = 1 by norm_num, Real.rpow_one]
    norm_num
  simp only [iterateLow, harg]
  norm_num

lemma low_branch_ce :
    lowBranch dp50 (26.0 * 10 ^ 6) (1 / 39.3701) (Lin_ce / 39.3701) 1 =
      .ok 0.375 := by
  simp only [lowBranch, iterate_low_ce]
  have htEC : Lin_ce / 39.3701 * m_to_inch * (0.18 * ((1 / 39.3701 : ℝ) * m_to_inch) - 2.2)
      * (10 : ℝ) ^ (-5 : ℤ) - 0.19 < 0 := by
    rw [Din_ce, Lm_ce]
    have h10 : ((10 : ℝ) ^ (-5 : ℤ)) = 1 / 100000 := by norm_num
    rw [h10]
    nlinarith [Lin_ce_pos]
  rw [if_neg (not_lt.mpr htEC.le)]
  norm_num

/-- Counterexample to C1 as stated: at lowest pressure 50 kPa and highest
temperature 800 K the design temperature is 1030.33 degrees F, beyond the
allowable-stress table, yet the operation takes the low-pressure branch
(which never reads the allowable stress), prints only a warning, and
returns a computed weight instead of surfacing an error. -/
theorem vessel_high_temp_not_always_error :
    900 < design_temp 800 ∧
    vertical_vessels_weight 50 800 (1 / 39.3701) (Lin_ce / 39.3701) 7850 1 =
      .ok w_ce := by
  constructor
  · norm_num [design_temp]
  · have httl : t_total_of 50 800 (1 / 39.3701) (Lin_ce / 39.3701) 1 = .ok 0.375 := by
      simp only [t_total_of]
      rw [if_neg (by norm_num : ¬(101 : ℝ) ≤ 50), design_pressure_50,
        E_modulus_800K, low_branch_ce]
      simp only [Except.map]
      norm_num
    simp only [vertical_vessels_weight, httl]
    rw [Din_ce, Lm_ce]
    simp only [w_ce, kg_m3_to_lb_in3, kg_to_lb]

/-- Helper: on the divergence input (diameter 0, length 10000 m, stress
15000) the iteration map sends any guess in the interval (0, 1] to a value
of at least 36000000. -/
lemma high_map_lower (t1 : ℝ) (h1 : 0 < t1) (h2 : t1 ≤ 1) :
    36000000 ≤ 0.22 * (t1 + 18) * 155000477401 / (15000 * t1 ^ 2) := by
  rw [le_div_iff (by positivity)]
  nlinarith [mul_nonneg (sub_nonneg.mpr h2) (by linarith : (0 : ℝ) ≤ 1 + t1)]

/-- Helper: on the divergence input the iteration map sends any guess of at
least 36000000 back into the interval (0, 1]. -/
lemma high_map_upper (t1 : ℝ) (h : 36000000 ≤ t1) :
    0 < 0.22 * (t1 + 18) * 155000477401 / (15000 * t1 ^ 2) ∧
    0.22 * (t1 + 18) * 155000477401 / (15000 * t1 ^ 2) ≤ 1 := by
  have ht : 0 < t1 := by linarith
  constructor
  · exact div_pos
      (mul_pos (mul_pos (by norm_num) (by linarith)) (by norm_num))
      (by positivity)
  · rw [div_le_one (by positivity)]
    nlinarith [sq_nonneg (t1 - 36000000)]

/-- Helper: the relative-change stopping test fails when the old guess lies
in (0, 1] and the new value is at least 36000000. -/
lemma stop_fails_P (t1 t : ℝ) (h1 : 0 < t1) (h2 : t1 ≤ 1)
    (ht : 36000000 ≤ t) : ¬ |(t1 - t) / t1| ≤ 0.001 := by
  intro habs
  have h3 := (abs_le.mp habs).1
  have h4 : (-0.001) * t1 ≤ t1 - t := (le_div_iff h1).mp h3
  linarith

/-- Helper: the relative-change stopping test fails when the old guess is at
least 36000000 and the new value is at most 1. -/
lemma stop_fails_Q (t1 t : ℝ) (h1 : 36000000 ≤ t1) (h2 : t ≤ 1) :
    ¬ |(t1 - t) / t1| ≤ 0.001 := by
  intro habs
  have ht1 : 0 < t1 := by linarith
  have h3 := (abs_le.mp habs).2
  have h4 : t1 - t ≤ 0.001 * t1 := (div_le_iff ht1).mp h3
  linarith

/-- Helper: on the divergence input the high-pressure wind/seismic iteration
oscillates between (0, 1] and [36000000, oo) with relative change always
above 0.001, so it never meets the convergence criterion, for any fuel. -/
lemma iterate_high_ce_diverges : ∀ (f : ℕ) (t1 : ℝ),
    ((0 < t1 ∧ t1 ≤ 1) ∨ 36000000 ≤ t1) →
    iterateHigh 15000 0 10000 f t1 = .error .nonConvergence := by
  intro f
  induction f with
  | zero =>
    intro t1 _
    rfl
  | succ n ih =>
    intro t1 h
    have h0 : (0 : ℝ) * m_to_inch + t1 = t1 := by
      simp [m_to_inch]
    have hK : ((10000 : ℝ) * m_to_inch) ^ 2 = 155000477401 := by
      norm_num [m_to_inch]
    simp only [iterateHigh]
    rw [h0, hK]
    rcases h with ⟨h1, h2⟩ | hq
    · have hft := high_map_lower t1 h1 h2
      rw [if_neg (stop_fails_P t1 _ h1 h2 hft)]
      exact ih _ (Or.inr hft)
    · obtain ⟨hp1, hp2⟩ := high_map_upper t1 hq
      rw [if_neg (stop_fails_Q t1 _ hq hp2)]
      exact ih _ (Or.inl ⟨hp1, hp2⟩)

/-- Helper: the allowable stress at 300 K (design temperature 130.33
degrees F) is 15000 psi. -/
lemma allowable_stress_300K : allowable_stress (design_temp 300) = some 15000 := by
  simp only [allowable_stress, design_temp]
  rw [if_pos (by norm_num)]

/-- C2: the source's wall-thickness iterations are unbounded `while` loops.
On the concrete input (101 kPa, 300 K, diameter 0 m, length 10000 m,
density 7850) the high-pressure iteration never meets the 0.001
relative-change criterion — the embedded loop fails to converge for every
fuel bound, so the Python loop runs forever; the source has no iteration
cap and no NonConvergence error to surface. -/
theorem vessel_iteration_never_terminates (fuel : ℕ) :
    vertical_vessels_weight 101 300 0 10000 7850 fuel =
      .error .nonConvergence := by
  have hhb : highBranch (design_pressure 101) (design_temp 300) 0 10000 fuel =
      .error .nonConvergence := by
    simp only [highBranch, allowable_stress_300K]
    rw [iterate_high_ce_diverges fuel 0.25 (Or.inl ⟨by norm_num, by norm_num⟩)]
  simp [vertical_vessels_weight, t_total_of,
    if_pos (by norm_num : (101 : ℝ) ≤ 101), hhb, Except.map]
